import Mathlib

/-!
Shallow embedding of the GUE gas-planning calculation library
(`gue_calc_lib.py`).  The Python functions work on IEEE floats; here they
are modelled over `ℚ` with Python's rounding primitives made explicit:

* `int(x)` — truncation toward zero (`truncQ`);
* `math.floor(x)` — `Int.floor`;
* `round(x)` / `round(x, 1)` — round-half-to-even to an integer, resp. to
  one decimal digit (`roundHalfEven`), which is Python 3's rounding rule.

Division by zero is modelled with `Option` where the Python code lets a
`ZeroDivisionError` propagate (`calcSCR`) and where a lookup may fail
(`calcUG`); the remaining functions are total on `ℚ`.
-/

namespace GUECalc

/-- Truncation toward zero of a rational, as Python's `int(...)` cast. -/
def truncQ (q : ℚ) : ℤ :=
  if 0 ≤ q then ⌊q⌋ else ⌈q⌉

/-- Round-half-to-even (banker's rounding) to the nearest integer — the
rounding rule of Python 3's builtin `round`. -/
def roundHalfEven (q : ℚ) : ℤ :=
  if q - ⌊q⌋ < 1/2 then ⌊q⌋
  else if 1/2 < q - ⌊q⌋ then ⌊q⌋ + 1
  else if ⌊q⌋ % 2 = 0 then ⌊q⌋ else ⌊q⌋ + 1

/-- Round-half-away-from-zero to the nearest integer.  Not used by the
code; it is the rule the specification claims for the tank factor, stated
here so the two rules can be compared. -/
def roundHalfAway (q : ℚ) : ℤ :=
  if 0 ≤ q then ⌊q + 1/2⌋ else ⌈q - 1/2⌉

/-- `calcATA(depth, water='salt')`: ambient pressure in ATA at `depth`,
rounded to one decimal place (`round((depth / divisor) + 1.0, 1)` with
divisor 34 for fresh water, 33 otherwise). -/
def calcATA (depth : ℚ) (water : String := "salt") : ℚ :=
  (roundHalfEven (((depth / (if water = "fresh" then 34 else 33)) + 1) * 10) : ℚ) / 10

/-- `calcTimeToStop(depth, gas_switch_depth=0)`: estimated minutes to
ascend to the surface or to a gas switch. -/
def calcTimeToStop (depth : ℚ) (gas_switch_depth : ℚ := 0) : ℤ :=
  if 0 < gas_switch_depth then truncQ (((depth - gas_switch_depth) / 10) + 2)
  else truncQ ((depth / 10) + 1)

/-- `calcMG(depth, gas_switch_depth=0, c=1.5)`: minimum gas in integer
cubic feet, `math.floor(c * a * t + 0.5)` with `a` the average ATA and
`t` the minutes to the stop. -/
def calcMG (depth : ℚ) (gas_switch_depth : ℚ := 0) (c : ℚ := 3/2) : ℤ :=
  let a := (calcATA depth + calcATA gas_switch_depth) / 2
  let t := calcTimeToStop depth gas_switch_depth
  ⌊c * a * (t : ℚ) + 1/2⌋

/-- `calcTF(rated_vol, rated_psi)`: tank factor in cubic feet per 100 PSI,
`round((rated_vol / rated_psi) * 100 * 2) / 2.0`. -/
def calcTF (rated_vol : ℚ) (rated_psi : ℚ) : ℚ :=
  (roundHalfEven ((rated_vol / rated_psi) * 100 * 2) : ℚ) / 2

/-- The specification's claimed tank-factor formula, with
round-half-away-from-zero at the intermediate integer rounding step
(spec §4.3), stated for comparison with `calcTF`. -/
def tankFactorSpec (rated_vol : ℚ) (rated_psi : ℚ) : ℚ :=
  (roundHalfAway ((rated_vol / rated_psi) * 100 * 2) : ℚ) / 2

/-- `nitrox_FO2(trimix_po2, nitrox_p_val)`: fractional O2 of the nitrox
portion of a blend, with an explicit guard returning 0.0 when the
remaining pressure is zero. -/
def nitrox_FO2 (trimix_po2 : ℚ) (nitrox_p_val : ℚ) : ℚ :=
  if nitrox_p_val = 0 then 0 else trimix_po2 / nitrox_p_val

/-- `calcTimeToSurface(depth)`: compatibility wrapper around
`calcTimeToStop(depth, gas_switch_depth=0)`. -/
def calcTimeToSurface (depth : ℚ) : ℤ :=
  calcTimeToStop depth 0

/-- `calcSCR(volume_consumed, ata, minutes)`: surface consumption rate,
`volume_consumed / ata / minutes`.  Each of the two Python float divisions
raises `ZeroDivisionError` on a zero denominator, modelled as `none`. -/
def calcSCR (volume_consumed : ℚ) (ata : ℚ) (minutes : ℚ) : Option ℚ :=
  if ata = 0 then none
  else if minutes = 0 then none
  else some (volume_consumed / ata / minutes)

/-- `calcUG(curr_psi=3000, mg_psi=500, method='ALL')`: usable gas in PSI.
The Python dict `{'ALL': 1, 'HALF': 2, 'THIRDS': 3}` is an association
list; a method outside it raises `KeyError`, modelled as `none`. -/
def calcUG (curr_psi : ℚ := 3000) (mg_psi : ℚ := 500) (method : String := "ALL") :
    Option ℚ :=
  match List.lookup method [("ALL", (1 : ℚ)), ("HALF", 2), ("THIRDS", 3)] with
  | none => none
  | some d => some ((curr_psi - mg_psi) / d)

/-- `calcMOD(f_o2, ppo2_limit=1.4, water='salt')`: maximum operating depth
in integer feet, `int((ppo2_limit / f_o2 - 1.0) * factor)` guarded by
`f_o2 <= 0 → 0`. -/
def calcMOD (f_o2 : ℚ) (ppo2_limit : ℚ := 7/5) (water : String := "salt") : ℤ :=
  if f_o2 ≤ 0 then 0
  else truncQ ((ppo2_limit / f_o2 - 1) * (if water = "fresh" then 34 else 33))

/-- `calcEND(depth, f_he, water='salt')`: equivalent narcotic depth in
integer feet, `int((narcotic_ata - 1.0) * factor)` where
`narcotic_ata = (depth / factor + 1.0) * (1.0 - f_he)`. -/
def calcEND (depth : ℚ) (f_he : ℚ) (water : String := "salt") : ℤ :=
  let factor : ℚ := if water = "fresh" then 34 else 33
  let ata := depth / factor + 1
  let narcotic_ata := ata * (1 - f_he)
  truncQ ((narcotic_ata - 1) * factor)

/-- C6: for every depth and water value, `calcATA` equals `1 + depth/divisor`
rounded to one decimal place (divisor 34 for `"fresh"`, 33 for `"salt"` and
any other value); `calcATA 0 water = 1` for every water value,
`calcATA 33 "salt" = 2`, and `calcATA 34 "fresh" = 2`. -/
theorem calcATA_one_decimal (depth : ℚ) (water : String) :
    calcATA depth water
        = (roundHalfEven (((depth / (if water = "fresh" then 34 else 33)) + 1) * 10) : ℚ)
            / 10 ∧
      calcATA 0 water = 1 ∧ calcATA 33 "salt" = 2 ∧ calcATA 34 "fresh" = 2 := by
  refine ⟨rfl, ?_, ?_, ?_⟩
  · by_cases hw : water = "fresh" <;> norm_num [calcATA, roundHalfEven, hw]
  · norm_num +decide [calcATA, roundHalfEven]
  · norm_num +decide [calcATA, roundHalfEven]

/-- C5: `calcTimeToStop` truncates toward zero `(depth - switchDepth)/10 + 2`
when the gas-switch depth is positive and `depth/10 + 1` otherwise; the
reference values 100 → 11, 30 → 4, and (100, 70) → 5 hold. -/
theorem calcTimeToStop_truncation (depth gas_switch_depth : ℚ) :
    calcTimeToStop depth gas_switch_depth
        = (if 0 < gas_switch_depth then truncQ (((depth - gas_switch_depth) / 10) + 2)
           else truncQ ((depth / 10) + 1)) ∧
      calcTimeToStop 100 = 11 ∧ calcTimeToStop 30 = 4 ∧ calcTimeToStop 100 70 = 5 := by
  refine ⟨rfl, ?_, ?_, ?_⟩ <;> norm_num +decide [calcTimeToStop, truncQ]

/-- C10: the compatibility wrapper `calcTimeToSurface` agrees with
`calcTimeToStop` at gas-switch depth 0 on every input. -/
theorem calcTimeToSurface_wrapper (depth : ℚ) :
    calcTimeToSurface depth = calcTimeToStop depth 0 := rfl

/-- C3: `calcMG` is `⌊raw + 1/2⌋` (round-half-up) of
`raw = c * averageATA * minutesToStop`, with the average of the salt-water
ATA at depth and at the switch depth, and `calcMG 100` with the default
switch depth 0 and consumption 3/2 equals 41. -/
theorem calcMG_round_half_up (depth gas_switch_depth c : ℚ) :
    calcMG depth gas_switch_depth c
        = ⌊c * ((calcATA depth "salt" + calcATA gas_switch_depth "salt") / 2)
            * (calcTimeToStop depth gas_switch_depth : ℚ) + 1/2⌋ ∧
      calcMG 100 = 41 := by
  refine ⟨rfl, ?_⟩
  norm_num +decide [calcMG, calcATA, calcTimeToStop, truncQ, roundHalfEven]

/-- C1 counterexample: at ratedVolume 1 and ratedPressure 16 the intermediate
value `(1/16)*100*2` is exactly 12.5 (exact even in binary floating point);
the code's Python 3 `round` (half-to-even) yields `calcTF 1 16 = 6`, while
the round-half-away-from-zero formula claimed by the spec yields 6.5, so
the claim as stated is false. -/
theorem calcTF_half_away_counterexample : ¬ (calcTF 1 16 = tankFactorSpec 1 16) := by
  norm_num [calcTF, tankFactorSpec, roundHalfEven, roundHalfAway]

/-- C1 (amended): for every ratedVolume and every ratedPressure > 0,
`calcTF` equals `round((ratedVolume/ratedPressure)*100*2)/2` where the
intermediate rounding to an integer is round-half-to-even (Python 3's
`round`), and the four reference values 77/3000 → 2.5, 200/3442 → 6.0,
170/2640 → 6.5, 154/3000 → 5.0 hold. -/
theorem calcTF_half_even (rated_vol rated_psi : ℚ) (h : 0 < rated_psi) :
    calcTF rated_vol rated_psi
        = (roundHalfEven ((rated_vol / rated_psi) * 100 * 2) : ℚ) / 2 ∧
      calcTF 77 3000 = 5/2 ∧ calcTF 200 3442 = 6 ∧
      calcTF 170 2640 = 13/2 ∧ calcTF 154 3000 = 5 := by
  refine ⟨rfl, ?_, ?_, ?_, ?_⟩ <;> norm_num [calcTF, roundHalfEven]

/-- C1 witness: the amended theorem instantiated at ratedVolume 77 and
ratedPressure 3000, whose positivity hypothesis is discharged concretely. -/
theorem calcTF_half_even_witness :
    calcTF 77 3000 = (roundHalfEven (((77 : ℚ) / 3000) * 100 * 2) : ℚ) / 2 :=
  (calcTF_half_even 77 3000 (by norm_num)).1

/-- C2: `calcSCR` fails with a division-by-zero error (modelled as `none`)
exactly when `ata * minutes = 0`, and otherwise returns
`volume_consumed / (ata * minutes)`. -/
theorem calcSCR_div_by_zero (volume_consumed ata minutes : ℚ) :
    calcSCR volume_consumed ata minutes
        = if ata * minutes = 0 then none
          else some (volume_consumed / (ata * minutes)) := by
  unfold calcSCR
  by_cases ha : ata = 0
  · simp [ha]
  · by_cases hm : minutes = 0
    · simp [ha, hm]
    · simp [ha, hm, mul_eq_zero, div_div]

/-- C4: `calcMOD` returns the sentinel 0 whenever the oxygen fraction is
nonpositive and otherwise truncates `(ppo2Limit/fractionO2 - 1) * divisor`
toward zero (divisor 34 for fresh water, 33 otherwise); the reference
values MOD(0.32) = 111, MOD(0.32, 1.6) = 132, MOD(1.0, 1.6) = 19 hold. -/
theorem calcMOD_guard_and_truncate (f_o2 ppo2_limit : ℚ) (water : String) :
    calcMOD f_o2 ppo2_limit water
        = (if f_o2 ≤ 0 then 0
           else truncQ ((ppo2_limit / f_o2 - 1) * (if water = "fresh" then 34 else 33))) ∧
      calcMOD (32/100) = 111 ∧ calcMOD (32/100) (16/10) = 132 ∧
      calcMOD 1 (16/10) = 19 := by
  refine ⟨rfl, ?_, ?_, ?_⟩ <;> norm_num +decide [calcMOD, truncQ]

/-- C7: `calcEND` truncates toward zero (never rounds)
`(narcoticATA - 1) * divisor` with `narcoticATA = (depth/divisor + 1) * (1 - fractionHe)`
and divisor 34 for fresh water, 33 otherwise; the reference values
END(150, 0.45) = 67 and END(100, 0.30) = 60 hold. -/
theorem calcEND_truncation (depth f_he : ℚ) (water : String) :
    calcEND depth f_he water
        = truncQ ((((depth / (if water = "fresh" then 34 else 33)) + 1) * (1 - f_he) - 1)
            * (if water = "fresh" then 34 else 33)) ∧
      calcEND 150 (45/100) = 67 ∧ calcEND 100 (3/10) = 60 := by
  refine ⟨rfl, ?_, ?_⟩ <;> norm_num +decide [calcEND, truncQ]

/-- C8: `nitrox_FO2` returns 0 when the remaining pressure is 0 (explicit
guard, never a division-by-zero error) and `oxygenPSI / remainingPressure`
otherwise; in particular `nitrox_FO2 480 0 = 0`. -/
theorem nitrox_FO2_guard (trimix_po2 nitrox_p_val : ℚ) :
    nitrox_FO2 trimix_po2 nitrox_p_val
        = (if nitrox_p_val = 0 then 0 else trimix_po2 / nitrox_p_val) ∧
      nitrox_FO2 480 0 = 0 :=
  ⟨rfl, by norm_num [nitrox_FO2]⟩

/-- C9: `calcUG` fails (modelled as `none`) exactly when the method is not
one of ALL, HALF, THIRDS, and on those three methods it divides
`curr_psi - mg_psi` by 1, 2 and 3 respectively. -/
theorem calcUG_method_table (curr_psi mg_psi : ℚ) (method : String) :
    (calcUG curr_psi mg_psi method = none
        ↔ method ∉ (["ALL", "HALF", "THIRDS"] : List String)) ∧
      calcUG curr_psi mg_psi "ALL" = some ((curr_psi - mg_psi) / 1) ∧
      calcUG curr_psi mg_psi "HALF" = some ((curr_psi - mg_psi) / 2) ∧
      calcUG curr_psi mg_psi "THIRDS" = some ((curr_psi - mg_psi) / 3) := by
  refine ⟨?_, ?_, ?_, ?_⟩
  · by_cases h1 : method = "ALL"
    · simp [calcUG, List.lookup, h1]
    · by_cases h2 : method = "HALF"
      · simp [calcUG, List.lookup, h2]
      · by_cases h3 : method = "THIRDS"
        · simp [calcUG, List.lookup, h3]
        · simp [calcUG, List.lookup, beq_false_of_ne h1, beq_false_of_ne h2,
            beq_false_of_ne h3, h1, h2, h3]
  · simp +decide [calcUG, List.lookup]
  · simp +decide [calcUG, List.lookup]
  · simp +decide [calcUG, List.lookup]
